import Mathlib

/-!
Shallow embedding of the Alice-LG source adapters
(`pkg/sources/openbgpd/bgplgd_source.go` and `pkg/sources/gobgp/source.go`)
together with the cache store and route classifier they rely on.

Time is modelled as a natural-number instant (`now : Nat`); Go durations
and counters become `Nat`/`Int`.  Go `nil` slices are `Option` values
(`none` models a nil slice, `some []` an allocated empty slice), since the
specification distinguishes "empty" from "null" sequences.  Fallible Go
functions returning `(T, error)` become `Except String T`; code paths that
dereference a nil pointer are modelled by a distinct `panics` outcome.
Backend I/O (HTTP round trips, gRPC streams) is modelled by explicit
backend oracles passed to each operation, and every operation additionally
reports the number of backend requests it performed.
-/

/-- A BGP large community: three 32-bit values, modelled as naturals. -/
abbrev Community := Nat × Nat × Nat

/-- A single RIB entry: network, next hop and its large-community set. -/
structure Route where
  network : String
  nextHop : String
  communities : List Community
  deriving Repr, DecidableEq

/-- An ordered sequence of routes (`api.Routes`). -/
abbrev Routes := List Route

/-- Envelope metadata (`api.Meta`): cache provenance, timestamps, version.
`cachedAt` is the construction instant and `ttl` the absolute expiry
instant (the Go code stores `time.Now().Add(cfg.CacheTTL)`). -/
structure Meta where
  cachedAt : Nat
  ttl : Nat
  version : String
  resultFromCache : Bool
  deriving Repr, DecidableEq

/-- `api.RoutesResponse`: the three classification sequences plus the
envelope.  The Go `Meta` field is a pointer and the sequences are slices,
so all are `Option` (`none` = Go nil). -/
structure RoutesResponse where
  meta : Option Meta
  imported : Option Routes
  notExported : Option Routes
  filtered : Option Routes
  deriving Repr, DecidableEq

/-- `api.Neighbor`: identity, session state and route counters. -/
structure Neighbor where
  id : String
  address : String
  asn : Int
  state : String
  description : String
  routeServerID : String
  routesReceived : Int
  routesAccepted : Int
  routesExported : Int
  routesFiltered : Int
  uptime : Int
  deriving Repr, DecidableEq

/-- `api.NeighborsResponse`. -/
structure NeighborsResponse where
  meta : Option Meta
  neighbors : List Neighbor
  deriving Repr, DecidableEq

/-- `api.NeighborStatus`: lightweight up/down + uptime view. -/
structure NeighborStatus where
  id : String
  state : String
  since : Int
  deriving Repr, DecidableEq

/-- `api.NeighborsStatusResponse`. -/
structure NeighborsStatusResponse where
  meta : Option Meta
  neighbors : List NeighborStatus
  deriving Repr, DecidableEq

/-- `api.Status` payload of a status response. -/
structure Status where
  routerID : String
  backend : String
  version : String
  message : String
  deriving Repr, DecidableEq

/-- `api.StatusResponse`. -/
structure StatusResponse where
  meta : Option Meta
  status : Status
  deriving Repr, DecidableEq

/-- Outcome of running a Go function: a value, a returned error, or a
runtime panic (nil-pointer dereference).  Go code never "catches" a panic
in this layer, so `panics` is terminal. -/
inductive  GoOutcome (α : Type) where
  | ok (val : α)
  | fail (err : String)
  | panics
  deriving Repr, DecidableEq

/-!
Route classifier

Modelled from the spec: the classifier functions
`filterReceivedRoutes` / `filterRejectedRoutes` of the openbgpd package
are not under `src/`; §4.4 of the spec defines them: a route is
*filtered* iff any of its attached large-community values matches a
pattern of the reject-community policy, otherwise it is *imported*.
Patterns are matched as exact values here.
-/

/-- A route is rejected iff its community set intersects the policy. -/
def routeIsRejected (policy : List Community) (r : Route) : Bool :=
  r.communities.any (fun c => policy.contains c)

/-- Modelled from the spec: routes of the dump that are not tagged with a
reject community (the *imported* lens). -/
def filterReceivedRoutes (policy : List Community) (rs : Routes) : Routes :=
  rs.filter (fun r => !(routeIsRejected policy r))

/-- Modelled from the spec: routes of the dump tagged with a reject
community (the *filtered* lens). -/
def filterRejectedRoutes (policy : List Community) (rs : Routes) : Routes :=
  rs.filter (fun r => routeIsRejected policy r)

/-!
Cache store

Modelled from the spec: the `caches` package is not under `src/`;
§4.5 of the spec defines the two cache shapes.  `CacheEntry` is
`{value, insertedAt, ttl}`; a keyed cache additionally keeps
`lastAccessed` for LRU eviction.  A disabled cache reports absent on
every `Get` and ignores every `Set`.  `Get` is a non-destructive read.
-/

/-- A cache entry: stored value, insertion instant and relative TTL. -/
structure CacheEntry (α : Type) where
  value : α
  insertedAt : Nat
  ttl : Nat
  deriving Repr, DecidableEq

/-- An entry is expired at `now` when `insertedAt + ttl ≤ now`. -/
def CacheEntry.expired (e : CacheEntry α) (now : Nat) : Bool :=
  e.insertedAt + e.ttl ≤ now

/-- Modelled from the spec: the singleton cache (`caches.NeighborsCache`)
holds one slot for a whole-collection response. -/
structure SingletonCache (α : Type) where
  disabled : Bool
  ttl : Nat
  entry : Option (CacheEntry α)
  deriving Repr, DecidableEq

/-- `NewNeighborsCache`: a fresh, empty singleton cache. -/
def SingletonCache.new (disabled : Bool) (ttl : Nat) : SingletonCache α :=
  ⟨disabled, ttl, none⟩

/-- `Get`: absent when disabled, unset or expired; the value otherwise. -/
def SingletonCache.get (c : SingletonCache α) (now : Nat) : Option α :=
  if c.disabled then none
  else match c.entry with
    | none => none
    | some e => if e.expired now then none else some e.value

/-- `Set`: overwrite the slot (a no-op when disabled). -/
def SingletonCache.set (c : SingletonCache α) (now : Nat) (v : α) :
    SingletonCache α :=
  if c.disabled then c else { c with entry := some ⟨v, now, c.ttl⟩ }

/-- `Expire`: drop the entry when TTL-expired, reporting the count. -/
def SingletonCache.expire (c : SingletonCache α) (now : Nat) :
    SingletonCache α × Nat :=
  match c.entry with
  | none => (c, 0)
  | some e =>
    if e.expired now then ({ c with entry := none }, 1) else (c, 0)

/-- Modelled from the spec: the keyed cache (`caches.RoutesCache`),
bounded by `maxSize` with least-recently-used eviction on insert.
Entries are `(key, entry, lastAccessed)`. -/
structure KeyedCache (α : Type) where
  disabled : Bool
  ttl : Nat
  maxSize : Nat
  entries : List (String × CacheEntry α × Nat)
  deriving Repr, DecidableEq

/-- `NewRoutesCache`: a fresh, empty keyed cache. -/
def KeyedCache.new (disabled : Bool) (ttl : Nat) (maxSize : Nat) :
    KeyedCache α :=
  ⟨disabled, ttl, maxSize, []⟩

/-- `Get key`: absent when disabled, unset or expired. -/
def KeyedCache.get (c : KeyedCache α) (now : Nat) (k : String) : Option α :=
  if c.disabled then none
  else match c.entries.find? (fun p => p.1 = k) with
    | none => none
    | some (_, e, _) => if e.expired now then none else some e.value

/-- Least-recently-used key of a non-empty entry list. -/
def KeyedCache.lruKey (l : List (String × CacheEntry α × Nat)) :
    Option String :=
  match l.foldl
      (fun best p =>
        match best with
        | none => some (p.1, p.2.2)
        | some (bk, bt) => if p.2.2 < bt then some (p.1, p.2.2) else some (bk, bt))
      none with
  | none => none
  | some (k, _) => some k

/-- Make room for one insert: at capacity, evict the LRU entry. -/
def evictIfFull (maxSize : Nat) (l : List (String × CacheEntry α × Nat)) :
    List (String × CacheEntry α × Nat) :=
  if l.length < maxSize then l
  else match KeyedCache.lruKey l with
    | none => l
    | some lk => l.filter (fun p => p.1 ≠ lk)

/-- `Set key value`: replace the key's entry, evicting the LRU entry
first when the cache is at capacity (a no-op when disabled). -/
def KeyedCache.set (c : KeyedCache α) (now : Nat) (k : String) (v : α) :
    KeyedCache α :=
  if c.disabled then c
  else
    { c with entries :=
        evictIfFull c.maxSize (c.entries.filter (fun p => p.1 ≠ k)) ++
          [(k, ⟨v, now, c.ttl⟩, now)] }

/-- `Expire`: drop every TTL-expired entry, reporting the count. -/
def KeyedCache.expire (c : KeyedCache α) (now : Nat) :
    KeyedCache α × Nat :=
  let keep := c.entries.filter (fun p => !(p.2.1.expired now))
  ({ c with entries := keep }, c.entries.length - keep.length)

/-!
Polling adapter (`openbgpd/bgplgd_source.go`)

The HTTP round trip, `decoders.ReadJSONResponse` and the decode helpers
are external collaborators ("parse or fail"); each backend endpoint is
therefore modelled as one oracle yielding either decoded records or an
error, matching the chain of early-return error checks in the source.
Every operation returns its outcome, the updated source state and the
number of backend requests performed.
-/

/-- The openbgpd source configuration (`openbgpd.Config`), read-only. -/
structure BgplgdConfig where
  id : String
  cacheTTL : Nat
  routesCacheSize : Nat
  rejectCommunities : List Community
  deriving Repr, DecidableEq

/-- Decoded results of the bgplgd HTTP endpoints: `/neighbors`,
`/summary`, `/rib` and `/rib?neighbor=<id>`. -/
structure HTTPBackend where
  neighborsBody : Except String (List Neighbor)
  summaryBody : Except String (List NeighborStatus)
  ribAll : Except String Routes
  ribNeighbor : String → Except String Routes

/-- `BgplgdSource`: configuration plus the five owned caches. -/
structure BgplgdSource where
  cfg : BgplgdConfig
  neighborsCache : SingletonCache NeighborsResponse
  neighborsSummaryCache : SingletonCache NeighborsResponse
  routesCache : KeyedCache RoutesResponse
  routesReceivedCache : KeyedCache RoutesResponse
  routesFilteredCache : KeyedCache RoutesResponse
  deriving Repr, DecidableEq

/-- `NewBgplgdSource`: caches are disabled when the configured TTL is
zero, keyed caches are bounded by `cfg.routesCacheSize`. -/
def NewBgplgdSource (cfg : BgplgdConfig) : BgplgdSource :=
  let cacheDisabled := cfg.cacheTTL = 0
  { cfg := cfg
    neighborsCache := SingletonCache.new cacheDisabled cfg.cacheTTL
    neighborsSummaryCache := SingletonCache.new cacheDisabled cfg.cacheTTL
    routesCache := KeyedCache.new cacheDisabled cfg.cacheTTL cfg.routesCacheSize
    routesReceivedCache := KeyedCache.new cacheDisabled cfg.cacheTTL cfg.routesCacheSize
    routesFilteredCache := KeyedCache.new cacheDisabled cfg.cacheTTL cfg.routesCacheSize }

/-- `ExpireCaches`: the source only sweeps `routesReceivedCache`. -/
def BgplgdSource.expireCaches (src : BgplgdSource) (now : Nat) :
    BgplgdSource × Nat :=
  let (c, totalExpired) := src.routesReceivedCache.expire now
  ({ src with routesReceivedCache := c }, totalExpired)

/-- `makeResponseMeta`: fresh envelope metadata, `CachedAt = now`,
`TTL = now + cfg.CacheTTL`, version `"1.0"`, not from cache. -/
def BgplgdConfig.makeResponseMeta (cfg : BgplgdConfig) (now : Nat) : Meta :=
  { cachedAt := now
    ttl := now + cfg.cacheTTL
    version := "1.0"
    resultFromCache := false }

/-- `Status`: a constant response, no backend request, never an error. -/
def BgplgdSource.status (src : BgplgdSource) (now : Nat) :
    GoOutcome StatusResponse × BgplgdSource × Nat :=
  (.ok { meta := some (src.cfg.makeResponseMeta now)
         status := { routerID := ""
                     backend := ""
                     version := "openbgpd"
                     message := "openbgpd up and running" } },
   src, 0)

/-- `RoutesFiltered`: cache check, RIB query on miss, classify rejected
routes, stamp envelope, cache store.  On a hit the stored envelope gets
`ResultFromCache = true` through its `Meta` pointer (nil means panic). -/
def BgplgdSource.routesFiltered (b : HTTPBackend) (src : BgplgdSource)
    (now : Nat) (neighborID : String) :
    GoOutcome RoutesResponse × BgplgdSource × Nat :=
  match src.routesFilteredCache.get now neighborID with
  | some r =>
    match r.meta with
    | some m =>
      (.ok { r with meta := some { m with resultFromCache := true } }, src, 0)
    | none => (.panics, src, 0)
  | none =>
    match b.ribNeighbor neighborID with
    | .error e => (.fail e, src, 1)
    | .ok routes =>
      let rejected := filterRejectedRoutes src.cfg.rejectCommunities routes
      let response : RoutesResponse :=
        { meta := some (src.cfg.makeResponseMeta now)
          imported := some []
          notExported := some []
          filtered := some rejected }
      (.ok response,
       { src with routesFilteredCache :=
          src.routesFilteredCache.set now neighborID response },
       1)

/-- `RoutesReceived`: cache check, RIB query on miss, classify received
routes, stamp envelope, cache store. -/
def BgplgdSource.routesReceived (b : HTTPBackend) (src : BgplgdSource)
    (now : Nat) (neighborID : String) :
    GoOutcome RoutesResponse × BgplgdSource × Nat :=
  match src.routesReceivedCache.get now neighborID with
  | some r =>
    match r.meta with
    | some m =>
      (.ok { r with meta := some { m with resultFromCache := true } }, src, 0)
    | none => (.panics, src, 0)
  | none =>
    match b.ribNeighbor neighborID with
    | .error e => (.fail e, src, 1)
    | .ok routes =>
      let received := filterReceivedRoutes src.cfg.rejectCommunities routes
      let response : RoutesResponse :=
        { meta := some (src.cfg.makeResponseMeta now)
          imported := some received
          notExported := some []
          filtered := some [] }
      (.ok response,
       { src with routesReceivedCache :=
          src.routesReceivedCache.set now neighborID response },
       1)

/-- `Routes`: cache check, RIB query on miss, classify both received and
rejected routes, stamp envelope, cache store. -/
def BgplgdSource.routes (b : HTTPBackend) (src : BgplgdSource)
    (now : Nat) (neighborID : String) :
    GoOutcome RoutesResponse × BgplgdSource × Nat :=
  match src.routesCache.get now neighborID with
  | some r =>
    match r.meta with
    | some m =>
      (.ok { r with meta := some { m with resultFromCache := true } }, src, 0)
    | none => (.panics, src, 0)
  | none =>
    match b.ribNeighbor neighborID with
    | .error e => (.fail e, src, 1)
    | .ok routes =>
      let received := filterReceivedRoutes src.cfg.rejectCommunities routes
      let rejected := filterRejectedRoutes src.cfg.rejectCommunities routes
      let response : RoutesResponse :=
        { meta := some (src.cfg.makeResponseMeta now)
          imported := some received
          notExported := some []
          filtered := some rejected }
      (.ok response,
       { src with routesCache := src.routesCache.set now neighborID response },
       1)

/-- `RoutesNotExported`: a constant all-empty successful response, with
no cache interaction and no backend request. -/
def BgplgdSource.routesNotExported (src : BgplgdSource) (now : Nat)
    (_neighborID : String) :
    GoOutcome RoutesResponse × BgplgdSource × Nat :=
  (.ok { meta := some (src.cfg.makeResponseMeta now)
         imported := some []
         notExported := some []
         filtered := some [] },
   src, 0)

/-- `AllRoutes`: full RIB query, classify, stamp envelope; never cached. -/
def BgplgdSource.allRoutes (b : HTTPBackend) (src : BgplgdSource)
    (now : Nat) : GoOutcome RoutesResponse × BgplgdSource × Nat :=
  match b.ribAll with
  | .error e => (.fail e, src, 1)
  | .ok routes =>
    let received := filterReceivedRoutes src.cfg.rejectCommunities routes
    let rejected := filterRejectedRoutes src.cfg.rejectCommunities routes
    (.ok { meta := some (src.cfg.makeResponseMeta now)
           imported := some received
           notExported := some []
           filtered := some rejected },
     src, 1)

/-- `NeighborsStatus`: `/summary` query, decode, stamp envelope; never
cached. -/
def BgplgdSource.neighborsStatus (b : HTTPBackend) (src : BgplgdSource)
    (now : Nat) : GoOutcome NeighborsStatusResponse × BgplgdSource × Nat :=
  match b.summaryBody with
  | .error e => (.fail e, src, 1)
  | .ok nb =>
    (.ok { meta := some (src.cfg.makeResponseMeta now), neighbors := nb },
     src, 1)

/-- `NeighborsSummary`: cache check, `/neighbors` query on miss, stamp
the route-server ID on each neighbor (no per-neighbor filtered-route
lookups), stamp envelope, cache store. -/
def BgplgdSource.neighborsSummary (b : HTTPBackend) (src : BgplgdSource)
    (now : Nat) : GoOutcome NeighborsResponse × BgplgdSource × Nat :=
  match src.neighborsSummaryCache.get now with
  | some r =>
    match r.meta with
    | some m =>
      (.ok { r with meta := some { m with resultFromCache := true } }, src, 0)
    | none => (.panics, src, 0)
  | none =>
    match b.neighborsBody with
    | .error e => (.fail e, src, 1)
    | .ok nb =>
      let nb' := nb.map (fun n => { n with routeServerID := src.cfg.id })
      let response : NeighborsResponse :=
        { meta := some (src.cfg.makeResponseMeta now), neighbors := nb' }
      (.ok response,
       { src with neighborsSummaryCache :=
          src.neighborsSummaryCache.set now response },
       1)

/-- The enrichment loop of `Neighbors`: for each decoded neighbor, stamp
the route-server ID and fetch its filtered-route count through
`RoutesFiltered` (whose cache writes thread through); any failure aborts
the whole loop with that error. -/
def BgplgdSource.enrichNeighbors (b : HTTPBackend) (now : Nat) :
    List Neighbor → BgplgdSource → Nat →
    GoOutcome (List Neighbor) × BgplgdSource × Nat
  | [], src, calls => (.ok [], src, calls)
  | n :: rest, src, calls =>
    let n' := { n with routeServerID := src.cfg.id }
    match BgplgdSource.routesFiltered b src now n'.id with
    | (.ok rejectedRes, src', c) =>
      let n'' := { n' with
        routesFiltered := Int.ofNat (rejectedRes.filtered.getD []).length }
      match BgplgdSource.enrichNeighbors b now rest src' (calls + c) with
      | (.ok l, src'', calls') => (.ok (n'' :: l), src'', calls')
      | (.fail e, src'', calls') => (.fail e, src'', calls')
      | (.panics, src'', calls') => (.panics, src'', calls')
    | (.fail e, src', c) => (.fail e, src', calls + c)
    | (.panics, src', c) => (.panics, src', calls + c)

/-- `Neighbors`: cache check, `/neighbors` query on miss, enrich every
neighbor with its filtered-route count, stamp envelope, cache store. -/
def BgplgdSource.neighbors (b : HTTPBackend) (src : BgplgdSource)
    (now : Nat) : GoOutcome NeighborsResponse × BgplgdSource × Nat :=
  match src.neighborsCache.get now with
  | some r =>
    match r.meta with
    | some m =>
      (.ok { r with meta := some { m with resultFromCache := true } }, src, 0)
    | none => (.panics, src, 0)
  | none =>
    match b.neighborsBody with
    | .error e => (.fail e, src, 1)
    | .ok nb =>
      match BgplgdSource.enrichNeighbors b now nb src 1 with
      | (.ok nb', src', calls) =>
        let response : NeighborsResponse :=
          { meta := some (src'.cfg.makeResponseMeta now), neighbors := nb' }
        (.ok response,
         { src' with neighborsCache := src'.neighborsCache.set now response },
         calls)
      | (.fail e, src', calls) => (.fail e, src', calls)
      | (.panics, src', calls) => (.panics, src', calls)

/-!
Streaming adapter (`gobgp/source.go`)

The gRPC streams are modelled as lists of receive results: each `Recv`
yields either a peer record or a non-EOF error (EOF is the end of the
list).  The source checks only for `io.EOF`; on any other receive error
it goes on to dereference the nil record, which is a panic.  The helpers
`PeerHash`, `GetNeighbors`, `GetRoutes` and `NewRoutesResponse` live in
files of the gobgp package that are not under `src/` and are modelled
from the spec (§4.3, §4.4).
-/

/-- Backend-native BGP session states (`gobgpapi.PeerState_SessionState`). -/
inductive  SessionState where
  | unknown
  | idle
  | connect
  | active
  | opensent
  | openconfirm
  | established
  deriving Repr, DecidableEq

/-- Per-AFI/SAFI counter state of a peer. -/
structure AfiSafiState where
  received : Int
  advertised : Int
  accepted : Int
  deriving Repr, DecidableEq

/-- A backend-native peer record of the ListPeer stream.  `uptime` is the
session-establishment instant `(seconds, nanos)` or absent. -/
structure Peer where
  neighborAddress : String
  peerAs : Nat
  sessionState : SessionState
  description : String
  afiSafis : List AfiSafiState
  uptime : Option (Int × Int)
  deriving Repr, DecidableEq

/-- One `Recv` result of a peer stream: a record, or a non-EOF error. -/
inductive  RecvItem where
  | record (p : Peer)
  | recvError (e : String)
  deriving Repr, DecidableEq

/-- The table requested from the backend (`gobgpapi.TableType`). -/
inductive  TableType where
  | adjIn
  | adjOut
  deriving Repr, DecidableEq

/-- The gRPC backend: the ListPeer stream and, per peer identifier and
table type, the decoded routes of that table. -/
structure GRPCBackend where
  listPeer : Except String (List RecvItem)
  table : String → TableType → Except String Routes

/-- The gobgp source configuration (`gobgp.Config`), read-only. -/
structure GoBGPConfig where
  id : String
  rejectCommunities : List Community
  deriving Repr, DecidableEq

/-- `GoBGP`: configuration plus the five owned caches. -/
structure GoBGP where
  cfg : GoBGPConfig
  neighborsCache : SingletonCache NeighborsResponse
  routesRequiredCache : KeyedCache RoutesResponse
  routesReceivedCache : KeyedCache RoutesResponse
  routesFilteredCache : KeyedCache RoutesResponse
  routesNotExportedCache : KeyedCache RoutesResponse
  deriving Repr, DecidableEq

/-- `ExpireCaches`: the source sweeps only `routesRequiredCache` and
`routesNotExportedCache`. -/
def GoBGP.expireCaches (st : GoBGP) (now : Nat) : GoBGP × Nat :=
  let (c1, count1) := st.routesRequiredCache.expire now
  let (c2, count2) := st.routesNotExportedCache.expire now
  ({ st with routesRequiredCache := c1, routesNotExportedCache := c2 },
   count1 + count2)

/-- Modelled from the spec: `PeerHash` (gobgp package, not under `src/`)
derives a stable peer identifier from a stable subset of backend-native
peer fields — address and ASN (§4.3). -/
def PeerHash (p : Peer) : String :=
  p.neighborAddress ++ "_" ++ toString p.peerAs

/-- Seconds/nanos instant as nanoseconds (`time.Unix`). -/
def unixNanos (s : Int) (ns : Int) : Int :=
  s * 1000000000 + ns

/-- The per-peer counter loop of `Neighbors`: the received, exported and
accepted counters accumulate the per-AFI/SAFI values, while the filtered
counter adds the *running* `received - accepted` difference on every
iteration (`neigh.RoutesFiltered += (neigh.RoutesReceived -
neigh.RoutesAccepted)`). -/
def gobgpPeerCounters (afis : List AfiSafiState) : Int × Int × Int × Int :=
  afis.foldl
    (fun acc a =>
      let received := acc.1 + a.received
      let exported := acc.2.1 + a.advertised
      let accepted := acc.2.2.1 + a.accepted
      let filtered := acc.2.2.2 + (received - accepted)
      (received, exported, accepted, filtered))
    (0, 0, 0, 0)

/-- The neighbor built for one peer record inside the `Neighbors` loop. -/
def gobgpNeighborFromPeer (cfg : GoBGPConfig) (now : Nat) (p : Peer) :
    Neighbor :=
  let (received, exported, accepted, filtered) := gobgpPeerCounters p.afiSafis
  { id := PeerHash p
    address := p.neighborAddress
    asn := Int.ofNat p.peerAs
    state := match p.sessionState with
      | .established => "up"
      | _ => "down"
    description := p.description
    routeServerID := cfg.id
    routesReceived := received
    routesAccepted := accepted
    routesExported := exported
    routesFiltered := filtered
    uptime := match p.uptime with
      | some (s, ns) => (now : Int) - unixNanos s ns
      | none => 0 }

/-- The `Neighbors` receive loop: EOF (end of list) breaks, a record adds
a neighbor; a non-EOF receive error is not checked by the source, which
then dereferences the nil record — a panic. -/
def gobgpNeighborsLoop (cfg : GoBGPConfig) (now : Nat) :
    List RecvItem → List Neighbor → GoOutcome (List Neighbor)
  | [], acc => .ok acc
  | .record p :: rest, acc =>
    gobgpNeighborsLoop cfg now rest (acc ++ [gobgpNeighborFromPeer cfg now p])
  | .recvError _ :: _, _ => .panics

/-- `Neighbors`: one ListPeer call, accumulate the stream.  No cache is
consulted or updated, and the response `Meta` stays nil. -/
def GoBGP.neighbors (b : GRPCBackend) (st : GoBGP) (now : Nat) :
    GoOutcome NeighborsResponse × GoBGP × Nat :=
  match b.listPeer with
  | .error e => (.fail e, st, 1)
  | .ok items =>
    match gobgpNeighborsLoop st.cfg now items [] with
    | .ok nbs => (.ok { meta := none, neighbors := nbs }, st, 1)
    | .fail e => (.fail e, st, 1)
    | .panics => (.panics, st, 1)

/-- `NeighborsSummary` is an alias of `Neighbors`. -/
def GoBGP.neighborsSummary (b : GRPCBackend) (st : GoBGP) (now : Nat) :
    GoOutcome NeighborsResponse × GoBGP × Nat :=
  GoBGP.neighbors b st now

/-- The `NeighborsStatus` receive loop: a status record `ns` is built for
every peer but never appended to the response, so the accumulator is
passed on unchanged; a non-EOF receive error again means a nil
dereference. -/
def gobgpNeighborsStatusLoop (now : Nat) :
    List RecvItem → List NeighborStatus → GoOutcome (List NeighborStatus)
  | [], acc => .ok acc
  | .record p :: rest, acc =>
    let _ns : NeighborStatus :=
      { id := PeerHash p
        state := match p.sessionState with
          | .established => "up"
          | _ => "down"
        since := match p.uptime with
          | some (s, ns) => (now : Int) - unixNanos s ns
          | none => 0 }
    gobgpNeighborsStatusLoop now rest acc
  | .recvError _ :: _, _ => .panics

/-- `NeighborsStatus`: one ListPeer call; the response starts with an
empty status list and the loop never adds to it.  Never cached. -/
def GoBGP.neighborsStatus (b : GRPCBackend) (st : GoBGP) (now : Nat) :
    GoOutcome NeighborsStatusResponse × GoBGP × Nat :=
  match b.listPeer with
  | .error e => (.fail e, st, 1)
  | .ok items =>
    match gobgpNeighborsStatusLoop now items [] with
    | .ok nbs => (.ok { meta := none, neighbors := nbs }, st, 1)
    | .fail e => (.fail e, st, 1)
    | .panics => (.panics, st, 1)

/-- Modelled from the spec: `GetNeighbors` (gobgp package, not under
`src/`) consumes one ListPeer stream and collects the peer records; a
receive error is returned (§4.3, §6: errors are returned). -/
def collectPeers : List RecvItem → List Peer → Except String (List Peer)
  | [], acc => .ok acc
  | .record p :: rest, acc => collectPeers rest (acc ++ [p])
  | .recvError e :: _, _ => .error e

/-- Modelled from the spec: `GetNeighbors` entry point. -/
def GoBGP.GetNeighbors (b : GRPCBackend) : Except String (List Peer) :=
  match b.listPeer with
  | .error e => .error e
  | .ok items => collectPeers items []

/-- Modelled from the spec: `lookupNeighbor` (gobgp package, not under
`src/`) resolves a neighbor ID against the streamed peer list; an
unknown ID is a NotFound error (§7). -/
def GoBGP.lookupNeighbor (b : GRPCBackend) (neighborID : String) :
    Except String Peer :=
  match GoBGP.GetNeighbors b with
  | .error e => .error e
  | .ok peers =>
    match peers.find? (fun p => PeerHash p = neighborID) with
    | some p => .ok p
    | none => .error ("neighbor not found: " ++ neighborID)

/-- Modelled from the spec: `NewRoutesResponse` (gobgp package, not under
`src/`) allocates a routes response with empty (non-null) sequences. -/
def NewRoutesResponse : RoutesResponse :=
  { meta := none
    imported := some []
    notExported := some []
    filtered := some [] }

/-- Modelled from the spec: `GetRoutes` (gobgp package, not under `src/`)
streams the peer's table of the given type and classifies every route by
the reject-community policy, appending received routes to `Imported` and
rejected ones to `Filtered` (§4.3, §4.4).  On a backend error the passed
response is left unchanged and the error is returned. -/
def GoBGP.GetRoutes (b : GRPCBackend) (st : GoBGP) (peer : Peer)
    (tableType : TableType) (routes : RoutesResponse) :
    Except String RoutesResponse :=
  match b.table (PeerHash peer) tableType with
  | .error e => .error e
  | .ok rs =>
    .ok { routes with
      imported := some ((routes.imported.getD []) ++
        filterReceivedRoutes st.cfg.rejectCommunities rs)
      filtered := some ((routes.filtered.getD []) ++
        filterRejectedRoutes st.cfg.rejectCommunities rs) }

/-- `Routes`: look the neighbor up, fetch and classify its Adj-RIB-In.
No cache is consulted or updated. -/
def GoBGP.routes (b : GRPCBackend) (st : GoBGP) (neighborID : String) :
    GoOutcome RoutesResponse × GoBGP × Nat :=
  match GoBGP.lookupNeighbor b neighborID with
  | .error e => (.fail e, st, 1)
  | .ok neigh =>
    match GoBGP.GetRoutes b st neigh .adjIn NewRoutesResponse with
    | .error e => (.fail e, st, 2)
    | .ok routes => (.ok routes, st, 2)

/-- `getRoutes`: same body as `Routes`. -/
def GoBGP.getRoutes (b : GRPCBackend) (st : GoBGP) (neighborID : String) :
    GoOutcome RoutesResponse × GoBGP × Nat :=
  match GoBGP.lookupNeighbor b neighborID with
  | .error e => (.fail e, st, 1)
  | .ok neigh =>
    match GoBGP.GetRoutes b st neigh .adjIn NewRoutesResponse with
    | .error e => (.fail e, st, 2)
    | .ok routes => (.ok routes, st, 2)

/-- `RoutesRequired` delegates to `getRoutes`. -/
def GoBGP.routesRequired (b : GRPCBackend) (st : GoBGP)
    (neighborID : String) : GoOutcome RoutesResponse × GoBGP × Nat :=
  GoBGP.getRoutes b st neighborID

/-- `RoutesReceived`: fetch and classify Adj-RIB-In, then set the
`Filtered` sequence to nil. -/
def GoBGP.routesReceived (b : GRPCBackend) (st : GoBGP)
    (neighborID : String) : GoOutcome RoutesResponse × GoBGP × Nat :=
  match GoBGP.lookupNeighbor b neighborID with
  | .error e => (.fail e, st, 1)
  | .ok neigh =>
    match GoBGP.GetRoutes b st neigh .adjIn NewRoutesResponse with
    | .error e => (.fail e, st, 2)
    | .ok routes => (.ok { routes with filtered := none }, st, 2)

/-- `RoutesFiltered`: call `getRoutes`; a failure is merely logged, after
which `routes.Imported = nil` dereferences the nil response — a panic.
On success the `Imported` sequence is set to nil. -/
def GoBGP.routesFiltered (b : GRPCBackend) (st : GoBGP)
    (neighborID : String) : GoOutcome RoutesResponse × GoBGP × Nat :=
  match GoBGP.getRoutes b st neighborID with
  | (.ok routes, st', calls) =>
    (.ok { routes with imported := none }, st', calls)
  | (.fail _, st', calls) => (.panics, st', calls)
  | (.panics, st', calls) => (.panics, st', calls)

/-- `RoutesNotExported`: fetch and classify Adj-RIB-Out, then alias the
`NotExported` sequence to the `Filtered` sequence (which is neither
cleared nor emptied). -/
def GoBGP.routesNotExported (b : GRPCBackend) (st : GoBGP)
    (neighborID : String) : GoOutcome RoutesResponse × GoBGP × Nat :=
  match GoBGP.lookupNeighbor b neighborID with
  | .error e => (.fail e, st, 1)
  | .ok neigh =>
    match GoBGP.GetRoutes b st neigh .adjOut NewRoutesResponse with
    | .error e => (.fail e, st, 2)
    | .ok routes =>
      (.ok { routes with notExported := routes.filtered }, st, 2)

/-- The `AllRoutes` per-peer loop: a `GetRoutes` failure is logged and
the loop continues with the response accumulated so far. -/
def GoBGP.allRoutesLoop (b : GRPCBackend) (st : GoBGP) :
    List Peer → RoutesResponse → RoutesResponse
  | [], routes => routes
  | peer :: rest, routes =>
    match GoBGP.GetRoutes b st peer .adjIn routes with
    | .ok routes' => GoBGP.allRoutesLoop b st rest routes'
    | .error _ => GoBGP.allRoutesLoop b st rest routes

/-- `AllRoutes`: collect the peers, then accumulate each peer's
Adj-RIB-In; per-peer failures do not abort the call.  Never cached. -/
def GoBGP.allRoutes (b : GRPCBackend) (st : GoBGP) :
    GoOutcome RoutesResponse × GoBGP × Nat :=
  match GoBGP.GetNeighbors b with
  | .error e => (.fail e, st, 1)
  | .ok peers =>
    (.ok (GoBGP.allRoutesLoop b st peers NewRoutesResponse), st,
     1 + peers.length)

/-!
Concrete fixtures: small concrete sources, backends and routes used by
the closed theorems and witnesses below.  The reject-community policy
tags `exRouteB` as rejected while `exRouteA` carries no community.
-/

/-- The reject-community policy of the examples. -/
def exPolicy : List Community := [(1, 2, 3)]

/-- A route with no community: classified received/imported. -/
def exRouteA : Route :=
  { network := "10.0.0.0/8", nextHop := "192.0.2.1", communities := [] }

/-- A route tagged with the reject community: classified filtered. -/
def exRouteB : Route :=
  { network := "10.1.0.0/16", nextHop := "192.0.2.1",
    communities := [(1, 2, 3)] }

/-- A concrete openbgpd configuration (TTL 5, cache size 128). -/
def exBgplgdCfg : BgplgdConfig :=
  { id := "rs1", cacheTTL := 5, routesCacheSize := 128,
    rejectCommunities := exPolicy }

/-- A freshly constructed openbgpd source (all caches empty, enabled). -/
def exBgplgd : BgplgdSource := NewBgplgdSource exBgplgdCfg

/-- A concrete gobgp configuration. -/
def exGoBGPCfg : GoBGPConfig := { id := "rs1", rejectCommunities := exPolicy }

/-- A gobgp source with empty, enabled caches. -/
def exGoBGP : GoBGP :=
  { cfg := exGoBGPCfg
    neighborsCache := SingletonCache.new false 5
    routesRequiredCache := KeyedCache.new false 5 128
    routesReceivedCache := KeyedCache.new false 5 128
    routesFilteredCache := KeyedCache.new false 5 128
    routesNotExportedCache := KeyedCache.new false 5 128 }

/-- An established peer. -/
def exPeer : Peer :=
  { neighborAddress := "203.0.113.7", peerAs := 64500,
    sessionState := .established, description := "peer one",
    afiSafis := [], uptime := none }

/-- A second peer, not established. -/
def exPeer2 : Peer :=
  { neighborAddress := "203.0.113.9", peerAs := 64501,
    sessionState := .idle, description := "peer two",
    afiSafis := [], uptime := none }

/-- A decoded openbgpd neighbor with ID `"n1"`. -/
def exNeighbor : Neighbor :=
  { id := "n1", address := "198.51.100.1", asn := 64510, state := "up",
    description := "n one", routeServerID := "", routesReceived := 0,
    routesAccepted := 0, routesExported := 0, routesFiltered := 0,
    uptime := 0 }

/-- A bgplgd backend: one neighbor, and a RIB with one received and one
rejected route for every neighbor query. -/
def exHTTPBackend : HTTPBackend :=
  { neighborsBody := .ok [exNeighbor]
    summaryBody := .ok []
    ribAll := .ok [exRouteA, exRouteB]
    ribNeighbor := fun _ => .ok [exRouteA, exRouteB] }

/-- A bgplgd backend whose per-neighbor RIB query always fails. -/
def failHTTPBackend : HTTPBackend :=
  { neighborsBody := .ok [exNeighbor]
    summaryBody := .ok []
    ribAll := .ok []
    ribNeighbor := fun _ => .error "backend down" }

/-- A cached routes response (envelope stamped at instant 0, TTL 5). -/
def exStaleRoutesResponse : RoutesResponse :=
  { meta := some { cachedAt := 0, ttl := 5, version := "1.0",
                   resultFromCache := false }
    imported := some []
    notExported := some []
    filtered := some [] }

/-- A gRPC backend whose Adj-RIB-In for every peer holds one received
and one rejected route. -/
def adjInBackend : GRPCBackend :=
  { listPeer := .ok [.record exPeer]
    table := fun _ tt =>
      match tt with
      | .adjIn => .ok [exRouteA, exRouteB]
      | .adjOut => .ok [] }

/-- A gRPC backend whose Adj-RIB-Out for every peer holds one received
and one rejected route. -/
def adjOutBackend : GRPCBackend :=
  { listPeer := .ok [.record exPeer]
    table := fun _ tt =>
      match tt with
      | .adjIn => .ok []
      | .adjOut => .ok [exRouteA, exRouteB] }

/-- An openbgpd source whose per-neighbor `routesCache` holds an entry
inserted at instant 0 with TTL 5 — expired at instant 10. -/
def c1Bgplgd : BgplgdSource :=
  { exBgplgd with routesCache :=
      { exBgplgd.routesCache with
          entries := [("n1", ⟨exStaleRoutesResponse, 0, 5⟩, 0)] } }

/-- A gobgp source whose `routesReceivedCache` holds an entry inserted at
instant 0 with TTL 5 — expired at instant 10. -/
def c1GoBGP : GoBGP :=
  { exGoBGP with routesReceivedCache :=
      { exGoBGP.routesReceivedCache with
          entries := [("n1", ⟨exStaleRoutesResponse, 0, 5⟩, 0)] } }

/-- The response `BgplgdSource.routesReceived` builds for `exHTTPBackend`
at instant 0: imported routes only, empty `Filtered`/`NotExported`. -/
def c3wResp : RoutesResponse :=
  { meta := some { cachedAt := 0, ttl := 5, version := "1.0",
                   resultFromCache := false }
    imported := some [exRouteA]
    notExported := some []
    filtered := some [] }

/-- The source state after that `routesReceived` call cached `c3wResp`. -/
def c3wSrc : BgplgdSource :=
  { exBgplgd with routesReceivedCache :=
      { exBgplgd.routesReceivedCache with
          entries := [("n1", ⟨c3wResp, 0, 5⟩, 0)] } }

/-- A gobgp source whose `routesRequiredCache` holds a fresh (unexpired)
response for `exPeer` at instant 0. -/
def c4GoBGP : GoBGP :=
  { exGoBGP with routesRequiredCache :=
      { exGoBGP.routesRequiredCache with
          entries := [(PeerHash exPeer, ⟨exStaleRoutesResponse, 0, 5⟩, 0)] } }

/-- The response `BgplgdSource.routes` builds for `exHTTPBackend` at
instant 0. -/
def c4wResp : RoutesResponse :=
  { meta := some { cachedAt := 0, ttl := 5, version := "1.0",
                   resultFromCache := false }
    imported := some [exRouteA]
    notExported := some []
    filtered := some [exRouteB] }

/-- The source state after that `routes` call cached `c4wResp`. -/
def c4wSrc : BgplgdSource :=
  { exBgplgd with routesCache :=
      { exBgplgd.routesCache with
          entries := [("n1", ⟨c4wResp, 0, 5⟩, 0)] } }

/-- An openbgpd source whose `routesCache` holds a fresh (unexpired)
entry for `"n1"` at instant 0. -/
def c5Src : BgplgdSource :=
  { exBgplgd with routesCache :=
      { exBgplgd.routesCache with
          entries := [("n1", ⟨exStaleRoutesResponse, 0, 5⟩, 0)] } }

/-- The cached response with `ResultFromCache` stamped true: `CachedAt`
and `TTL` are unchanged. -/
def c5Stamped : RoutesResponse :=
  { exStaleRoutesResponse with
      meta := some { cachedAt := 0, ttl := 5, version := "1.0",
                     resultFromCache := true } }

/-- A backend with no peers: every neighbor lookup is a NotFound error. -/
def c6EmptyBackend : GRPCBackend :=
  { listPeer := .ok [], table := fun _ _ => .ok [] }

/-- A backend whose peer stream yields a non-EOF receive error. -/
def c6ErrBackend : GRPCBackend :=
  { listPeer := .ok [.recvError "connection reset"],
    table := fun _ _ => .ok [] }

/-- A backend with two peers whose Adj-RIB-In query succeeds for the
first peer and fails for the second. -/
def c7Backend : GRPCBackend :=
  { listPeer := .ok [.record exPeer, .record exPeer2]
    table := fun pid _ =>
      if pid = PeerHash exPeer then .ok [exRouteA]
      else .error "backend failure" }

/-- A backend reporting exactly one (established) peer. -/
def c8Backend : GRPCBackend :=
  { listPeer := .ok [.record exPeer], table := fun _ _ => .ok [] }

/-- A peer advertising two address families:
`(received, advertised, accepted) = (10, 3, 4)` and `(5, 2, 5)`. -/
def c9Peer : Peer :=
  { neighborAddress := "203.0.113.11", peerAs := 64502,
    sessionState := .established, description := "",
    afiSafis := [⟨10, 3, 4⟩, ⟨5, 2, 5⟩], uptime := none }

/-- The backend reporting `c9Peer`. -/
def c9Backend : GRPCBackend :=
  { listPeer := .ok [.record c9Peer], table := fun _ _ => .ok [] }

/-- The neighbor actually produced by `GoBGP.Neighbors` for `c9Peer`:
received/exported/accepted are the correct per-AFI sums (15, 5, 9), but
the filtered counter compounds the running difference:
`(10-4) + (15-9) = 12` instead of `15 - 9 = 6`. -/
def c9Neighbor : Neighbor :=
  { id := "203.0.113.11_64502", address := "203.0.113.11", asn := 64502,
    state := "up", description := "", routeServerID := "rs1",
    routesReceived := 15, routesAccepted := 9, routesExported := 5,
    routesFiltered := 12, uptime := 0 }

/-!
Helper lemmas about the cache store and the enrichment loop.
-/

/-- Finding a key at the end of a list that does not contain it. -/
theorem findKeyAppend {α : Type} (k : String) (x : CacheEntry α × Nat) :
    ∀ l : List (String × CacheEntry α × Nat),
      (∀ p ∈ l, p.1 ≠ k) →
      (l ++ [(k, x)]).find? (fun p => p.1 = k) = some (k, x) := by
  intro l
  induction l with
  | nil => intro _; simp [List.find?]
  | cons a t ih =>
    intro h
    have ha : a.1 ≠ k := h a (List.mem_cons_self a t)
    rw [List.cons_append, List.find?_cons_of_neg _ (by simpa using ha)]
    exact ih (fun p hp => h p (List.mem_cons_of_mem a hp))

/-- Eviction only removes entries. -/
theorem mem_evictIfFull {α : Type} (m : Nat)
    (l : List (String × CacheEntry α × Nat)) (p : String × CacheEntry α × Nat)
    (hp : p ∈ evictIfFull m l) : p ∈ l := by
  unfold evictIfFull at hp
  split at hp
  · exact hp
  · split at hp
    · exact hp
    · exact (List.mem_filter.mp hp).1

/-- Cache round trip on the keyed cache: `Set k v` followed by `Get k`
at the same instant returns `v`, for an enabled cache with positive
TTL. -/
theorem keyedGetAfterSet {α : Type} (c : KeyedCache α) (now : Nat)
    (k : String) (v : α) (hdis : c.disabled = false) (httl : 0 < c.ttl) :
    (c.set now k v).get now k = some v := by
  have hw : ∀ p ∈ evictIfFull c.maxSize
      (c.entries.filter (fun p => p.1 ≠ k)), p.1 ≠ k := by
    intro p hp
    have := mem_evictIfFull c.maxSize _ p hp
    simpa using (List.mem_filter.mp this).2
  unfold KeyedCache.set KeyedCache.get
  simp only [hdis, Bool.false_eq_true, if_false]
  rw [findKeyAppend k _ _ hw]
  have hexp : ¬ (now + c.ttl ≤ now) := by omega
  simp [CacheEntry.expired, hexp]

/-- Cache round trip on the singleton cache. -/
theorem singletonGetAfterSet {α : Type} (c : SingletonCache α) (now : Nat)
    (v : α) (hdis : c.disabled = false) (httl : 0 < c.ttl) :
    (c.set now v).get now = some v := by
  unfold SingletonCache.set SingletonCache.get
  have hexp : ¬ (now + c.ttl ≤ now) := by omega
  simp [hdis, CacheEntry.expired, hexp]

/-- `RoutesFiltered` only ever writes `routesFilteredCache`: the
configuration and the neighbors cache pass through unchanged. -/
theorem routesFilteredPreserves (b : HTTPBackend) (src : BgplgdSource)
    (now : Nat) (nid : String) :
    (BgplgdSource.routesFiltered b src now nid).2.1.cfg = src.cfg ∧
    (BgplgdSource.routesFiltered b src now nid).2.1.neighborsCache =
      src.neighborsCache := by
  unfold BgplgdSource.routesFiltered
  cases hget : src.routesFilteredCache.get now nid with
  | some r =>
    cases hmeta : r.meta with
    | some m => simp [hmeta]
    | none => simp [hmeta]
  | none =>
    cases hbe : b.ribNeighbor nid with
    | error e => simp [hbe]
    | ok rs => simp [hbe]

/-- The enrichment loop only ever writes `routesFilteredCache` (through
`RoutesFiltered`): configuration and neighbors cache pass through. -/
theorem enrichPreserves (b : HTTPBackend) (now : Nat) :
    ∀ (l : List Neighbor) (src : BgplgdSource) (calls : Nat),
      (BgplgdSource.enrichNeighbors b now l src calls).2.1.cfg = src.cfg ∧
      (BgplgdSource.enrichNeighbors b now l src calls).2.1.neighborsCache =
        src.neighborsCache := by
  intro l
  induction l with
  | nil => intro src calls; simp [BgplgdSource.enrichNeighbors]
  | cons n rest ih =>
    intro src calls
    unfold BgplgdSource.enrichNeighbors
    have hp := routesFilteredPreserves b src now n.id
    rcases hrf : BgplgdSource.routesFiltered b src now n.id with ⟨o, src1, c1⟩
    rw [hrf] at hp
    simp only [hrf]
    cases o with
    | ok rr =>
      have hp2 := ih src1 (calls + c1)
      rcases hrec : BgplgdSource.enrichNeighbors b now rest src1 (calls + c1)
        with ⟨o2, src2, c2⟩
      rw [hrec] at hp2
      simp only [hrec]
      cases o2 <;>
        exact ⟨hp2.1.trans hp.1, hp2.2.trans hp.2⟩
    | fail e => exact hp
    | panics => exact hp

/-!
Claim theorems.
-/

/-- C1 (code bug): `ExpireCaches` does not sweep every owned cache.
The openbgpd source only sweeps `routesReceivedCache`, so a TTL-expired
entry of its `routesCache` is neither removed nor counted; the gobgp
source only sweeps `routesRequiredCache` and `routesNotExportedCache`,
so a TTL-expired entry of its `routesReceivedCache` survives as well —
both calls return 0 instead of the claimed total of 1. -/
theorem c1_expire_caches_skips_caches :
    (BgplgdSource.expireCaches c1Bgplgd 10).2 = 0 ∧
    (BgplgdSource.expireCaches c1Bgplgd 10).1.routesCache.entries.length = 1 ∧
    (GoBGP.expireCaches c1GoBGP 10).2 = 0 ∧
    (GoBGP.expireCaches c1GoBGP 10).1.routesReceivedCache.entries.length = 1 := by
  decide

/-- C2 (code bug): `GoBGP.RoutesNotExported` aliases the `Filtered`
sequence into `NotExported` without clearing it, so the rejected route
`exRouteB` of the peer's Adj-RIB-Out appears in *both* the `Filtered`
and the `NotExported` sequence of the same successful response. -/
theorem c2_not_exported_duplicates_filtered :
    (GoBGP.routesNotExported adjOutBackend exGoBGP (PeerHash exPeer)).1 =
      GoOutcome.ok
        { meta := none
          imported := some [exRouteA]
          notExported := some [exRouteB]
          filtered := some [exRouteB] } := by
  decide

/-- C3 (counterexample): on the gobgp adapter the unrequested sequences
are nil, not empty: `RoutesReceived` returns `Filtered = nil`
(`routes.Filtered = nil`) and `RoutesFiltered` returns
`Imported = nil`. -/
theorem c3_gobgp_null_sequences :
    (GoBGP.routesReceived adjInBackend exGoBGP (PeerHash exPeer)).1 =
      GoOutcome.ok
        { meta := none
          imported := some [exRouteA]
          notExported := some []
          filtered := none } ∧
    (GoBGP.routesFiltered adjInBackend exGoBGP (PeerHash exPeer)).1 =
      GoOutcome.ok
        { meta := none
          imported := none
          notExported := some []
          filtered := some [exRouteB] } := by
  decide

/-- C3 (amended claim): on the polling (openbgpd) adapter every freshly
computed successful `RoutesReceived` response has non-null empty
`Filtered` and `NotExported` sequences, and every freshly computed
successful `RoutesFiltered` response has non-null empty `Imported` and
`NotExported` sequences. -/
theorem c3_bgplgd_unrequested_empty (b : HTTPBackend) (src : BgplgdSource)
    (now : Nat) (nid : String) :
    (∀ r src' c, src.routesReceivedCache.get now nid = none →
      BgplgdSource.routesReceived b src now nid = (.ok r, src', c) →
      r.filtered = some [] ∧ r.notExported = some []) ∧
    (∀ r src' c, src.routesFilteredCache.get now nid = none →
      BgplgdSource.routesFiltered b src now nid = (.ok r, src', c) →
      r.imported = some [] ∧ r.notExported = some []) := by
  constructor
  · intro r src' c hmiss heq
    cases hbe : b.ribNeighbor nid with
    | error e =>
      simp [BgplgdSource.routesReceived, hmiss, hbe] at heq
    | ok rs =>
      simp only [BgplgdSource.routesReceived, hmiss, hbe, Prod.mk.injEq,
        GoOutcome.ok.injEq] at heq
      obtain ⟨h1, h2, h3⟩ := heq
      subst h1
      exact ⟨rfl, rfl⟩
  · intro r src' c hmiss heq
    cases hbe : b.ribNeighbor nid with
    | error e =>
      simp [BgplgdSource.routesFiltered, hmiss, hbe] at heq
    | ok rs =>
      simp only [BgplgdSource.routesFiltered, hmiss, hbe, Prod.mk.injEq,
        GoOutcome.ok.injEq] at heq
      obtain ⟨h1, h2, h3⟩ := heq
      subst h1
      exact ⟨rfl, rfl⟩

/-- Witness for C3's amended theorem at a concrete input. -/
theorem c3_bgplgd_unrequested_empty_witness :
    c3wResp.filtered = some [] ∧ c3wResp.notExported = some [] :=
  (c3_bgplgd_unrequested_empty exHTTPBackend exBgplgd 0 "n1").1
    c3wResp c3wSrc 1 (by decide) (by decide)

/-- C4 (counterexample): the gobgp adapter never consults or updates
its caches.  Although `routesRequiredCache` holds a fresh value for the
neighbor, `Routes` still performs two backend requests, returns a
response different from the cached one, and leaves the source state —
all caches included — unchanged. -/
theorem c4_gobgp_ignores_cache :
    c4GoBGP.routesRequiredCache.get 0 (PeerHash exPeer) =
      some exStaleRoutesResponse ∧
    (GoBGP.routes adjInBackend c4GoBGP (PeerHash exPeer)).2.2 = 2 ∧
    (GoBGP.routes adjInBackend c4GoBGP (PeerHash exPeer)).1 ≠
      GoOutcome.ok exStaleRoutesResponse ∧
    (GoBGP.routes adjInBackend c4GoBGP (PeerHash exPeer)).2.1 = c4GoBGP := by
  decide

/-- C4 (amended claim): on the polling (openbgpd) adapter, `Routes`,
`RoutesReceived`, `RoutesFiltered`, `NeighborsSummary` and `Neighbors`
check their cache first and, on a miss that succeeds with an enabled
cache (positive TTL), store the freshly built response before returning
it — a `Get` at the same instant then yields it. -/
theorem c4_bgplgd_cache_skeleton (b : HTTPBackend) (src : BgplgdSource)
    (now : Nat) (nid : String) :
    (∀ r src' c, src.routesCache.get now nid = none →
      src.routesCache.disabled = false → 0 < src.routesCache.ttl →
      BgplgdSource.routes b src now nid = (.ok r, src', c) →
      c = 1 ∧ src'.routesCache.get now nid = some r) ∧
    (∀ r src' c, src.routesReceivedCache.get now nid = none →
      src.routesReceivedCache.disabled = false →
      0 < src.routesReceivedCache.ttl →
      BgplgdSource.routesReceived b src now nid = (.ok r, src', c) →
      c = 1 ∧ src'.routesReceivedCache.get now nid = some r) ∧
    (∀ r src' c, src.routesFilteredCache.get now nid = none →
      src.routesFilteredCache.disabled = false →
      0 < src.routesFilteredCache.ttl →
      BgplgdSource.routesFiltered b src now nid = (.ok r, src', c) →
      c = 1 ∧ src'.routesFilteredCache.get now nid = some r) ∧
    (∀ r src' c, src.neighborsSummaryCache.get now = none →
      src.neighborsSummaryCache.disabled = false →
      0 < src.neighborsSummaryCache.ttl →
      BgplgdSource.neighborsSummary b src now = (.ok r, src', c) →
      c = 1 ∧ src'.neighborsSummaryCache.get now = some r) ∧
    (∀ r src' c, src.neighborsCache.get now = none →
      src.neighborsCache.disabled = false → 0 < src.neighborsCache.ttl →
      BgplgdSource.neighbors b src now = (.ok r, src', c) →
      src'.neighborsCache.get now = some r) := by
  refine ⟨?_, ?_, ?_, ?_, ?_⟩
  · intro r src' c hmiss hdis httl heq
    cases hbe : b.ribNeighbor nid with
    | error e => simp [BgplgdSource.routes, hmiss, hbe] at heq
    | ok rs =>
      simp only [BgplgdSource.routes, hmiss, hbe, Prod.mk.injEq,
        GoOutcome.ok.injEq] at heq
      obtain ⟨h1, h2, h3⟩ := heq
      subst h1; subst h2
      exact ⟨h3.symm, keyedGetAfterSet src.routesCache now nid _ hdis httl⟩
  · intro r src' c hmiss hdis httl heq
    cases hbe : b.ribNeighbor nid with
    | error e => simp [BgplgdSource.routesReceived, hmiss, hbe] at heq
    | ok rs =>
      simp only [BgplgdSource.routesReceived, hmiss, hbe, Prod.mk.injEq,
        GoOutcome.ok.injEq] at heq
      obtain ⟨h1, h2, h3⟩ := heq
      subst h1; subst h2
      exact ⟨h3.symm,
        keyedGetAfterSet src.routesReceivedCache now nid _ hdis httl⟩
  · intro r src' c hmiss hdis httl heq
    cases hbe : b.ribNeighbor nid with
    | error e => simp [BgplgdSource.routesFiltered, hmiss, hbe] at heq
    | ok rs =>
      simp only [BgplgdSource.routesFiltered, hmiss, hbe, Prod.mk.injEq,
        GoOutcome.ok.injEq] at heq
      obtain ⟨h1, h2, h3⟩ := heq
      subst h1; subst h2
      exact ⟨h3.symm,
        keyedGetAfterSet src.routesFilteredCache now nid _ hdis httl⟩
  · intro r src' c hmiss hdis httl heq
    cases hbe : b.neighborsBody with
    | error e => simp [BgplgdSource.neighborsSummary, hmiss, hbe] at heq
    | ok nb =>
      simp only [BgplgdSource.neighborsSummary, hmiss, hbe, Prod.mk.injEq,
        GoOutcome.ok.injEq] at heq
      obtain ⟨h1, h2, h3⟩ := heq
      subst h1; subst h2
      exact ⟨h3.symm,
        singletonGetAfterSet src.neighborsSummaryCache now _ hdis httl⟩
  · intro r src' c hmiss hdis httl heq
    cases hbe : b.neighborsBody with
    | error e => simp [BgplgdSource.neighbors, hmiss, hbe] at heq
    | ok nb =>
      have hpres := enrichPreserves b now nb src 1
      rcases henr : BgplgdSource.enrichNeighbors b now nb src 1
        with ⟨o, srcE, cE⟩
      rw [henr] at hpres
      cases o with
      | ok nb2 =>
        simp only [BgplgdSource.neighbors, hmiss, hbe, henr, Prod.mk.injEq,
          GoOutcome.ok.injEq] at heq
        obtain ⟨h1, h2, h3⟩ := heq
        subst h1; subst h2
        exact singletonGetAfterSet srcE.neighborsCache now _
          (by rw [hpres.2]; exact hdis) (by rw [hpres.2]; exact httl)
      | fail e => simp [BgplgdSource.neighbors, hmiss, hbe, henr] at heq
      | panics => simp [BgplgdSource.neighbors, hmiss, hbe, henr] at heq

/-- Witness for C4's amended theorem at a concrete input. -/
theorem c4_bgplgd_cache_skeleton_witness :
    c4wSrc.routesCache.get 0 "n1" = some c4wResp :=
  ((c4_bgplgd_cache_skeleton exHTTPBackend exBgplgd 0 "n1").1
    c4wResp c4wSrc 1 (by decide) (by decide) (by decide) (by decide)).2

/-- C5 (confirmed): on every cached operation of the openbgpd adapter a
cache hit returns without any backend request and without touching the
source state, stamping `ResultFromCache = true` on the cached envelope
while keeping its `CachedAt`, `TTL` and version unchanged; and every
freshly computed (cache-miss) successful response carries a
fresh envelope whose `ResultFromCache` is false. -/
theorem c5_cache_hit_semantics (b : HTTPBackend) (src : BgplgdSource)
    (now : Nat) (nid : String) :
    (∀ r m, src.routesCache.get now nid = some r → r.meta = some m →
      BgplgdSource.routes b src now nid =
        (.ok { r with meta := some { m with resultFromCache := true } },
         src, 0)) ∧
    (∀ r m, src.routesReceivedCache.get now nid = some r → r.meta = some m →
      BgplgdSource.routesReceived b src now nid =
        (.ok { r with meta := some { m with resultFromCache := true } },
         src, 0)) ∧
    (∀ r m, src.routesFilteredCache.get now nid = some r → r.meta = some m →
      BgplgdSource.routesFiltered b src now nid =
        (.ok { r with meta := some { m with resultFromCache := true } },
         src, 0)) ∧
    (∀ r m, src.neighborsSummaryCache.get now = some r → r.meta = some m →
      BgplgdSource.neighborsSummary b src now =
        (.ok { r with meta := some { m with resultFromCache := true } },
         src, 0)) ∧
    (∀ r m, src.neighborsCache.get now = some r → r.meta = some m →
      BgplgdSource.neighbors b src now =
        (.ok { r with meta := some { m with resultFromCache := true } },
         src, 0)) ∧
    (∀ r src' c, src.routesCache.get now nid = none →
      BgplgdSource.routes b src now nid = (.ok r, src', c) →
      r.meta = some (src.cfg.makeResponseMeta now) ∧
      (src.cfg.makeResponseMeta now).resultFromCache = false) ∧
    (∀ r src' c, src.routesReceivedCache.get now nid = none →
      BgplgdSource.routesReceived b src now nid = (.ok r, src', c) →
      r.meta = some (src.cfg.makeResponseMeta now) ∧
      (src.cfg.makeResponseMeta now).resultFromCache = false) ∧
    (∀ r src' c, src.routesFilteredCache.get now nid = none →
      BgplgdSource.routesFiltered b src now nid = (.ok r, src', c) →
      r.meta = some (src.cfg.makeResponseMeta now) ∧
      (src.cfg.makeResponseMeta now).resultFromCache = false) ∧
    (∀ r src' c, src.neighborsSummaryCache.get now = none →
      BgplgdSource.neighborsSummary b src now = (.ok r, src', c) →
      r.meta = some (src.cfg.makeResponseMeta now) ∧
      (src.cfg.makeResponseMeta now).resultFromCache = false) ∧
    (∀ r src' c, src.neighborsCache.get now = none →
      BgplgdSource.neighbors b src now = (.ok r, src', c) →
      r.meta = some (src.cfg.makeResponseMeta now) ∧
      (src.cfg.makeResponseMeta now).resultFromCache = false) := by
  refine ⟨?_, ?_, ?_, ?_, ?_, ?_, ?_, ?_, ?_, ?_⟩
  · intro r m hget hmeta
    simp [BgplgdSource.routes, hget, hmeta]
  · intro r m hget hmeta
    simp [BgplgdSource.routesReceived, hget, hmeta]
  · intro r m hget hmeta
    simp [BgplgdSource.routesFiltered, hget, hmeta]
  · intro r m hget hmeta
    simp [BgplgdSource.neighborsSummary, hget, hmeta]
  · intro r m hget hmeta
    simp [BgplgdSource.neighbors, hget, hmeta]
  · intro r src' c hmiss heq
    cases hbe : b.ribNeighbor nid with
    | error e => simp [BgplgdSource.routes, hmiss, hbe] at heq
    | ok rs =>
      simp only [BgplgdSource.routes, hmiss, hbe, Prod.mk.injEq,
        GoOutcome.ok.injEq] at heq
      obtain ⟨h1, h2, h3⟩ := heq
      subst h1
      exact ⟨rfl, rfl⟩
  · intro r src' c hmiss heq
    cases hbe : b.ribNeighbor nid with
    | error e => simp [BgplgdSource.routesReceived, hmiss, hbe] at heq
    | ok rs =>
      simp only [BgplgdSource.routesReceived, hmiss, hbe, Prod.mk.injEq,
        GoOutcome.ok.injEq] at heq
      obtain ⟨h1, h2, h3⟩ := heq
      subst h1
      exact ⟨rfl, rfl⟩
  · intro r src' c hmiss heq
    cases hbe : b.ribNeighbor nid with
    | error e => simp [BgplgdSource.routesFiltered, hmiss, hbe] at heq
    | ok rs =>
      simp only [BgplgdSource.routesFiltered, hmiss, hbe, Prod.mk.injEq,
        GoOutcome.ok.injEq] at heq
      obtain ⟨h1, h2, h3⟩ := heq
      subst h1
      exact ⟨rfl, rfl⟩
  · intro r src' c hmiss heq
    cases hbe : b.neighborsBody with
    | error e => simp [BgplgdSource.neighborsSummary, hmiss, hbe] at heq
    | ok nb =>
      simp only [BgplgdSource.neighborsSummary, hmiss, hbe, Prod.mk.injEq,
        GoOutcome.ok.injEq] at heq
      obtain ⟨h1, h2, h3⟩ := heq
      subst h1
      exact ⟨rfl, rfl⟩
  · intro r src' c hmiss heq
    cases hbe : b.neighborsBody with
    | error e => simp [BgplgdSource.neighbors, hmiss, hbe] at heq
    | ok nb =>
      have hpres := enrichPreserves b now nb src 1
      rcases henr : BgplgdSource.enrichNeighbors b now nb src 1
        with ⟨o, srcE, cE⟩
      rw [henr] at hpres
      cases o with
      | ok nb2 =>
        simp only [BgplgdSource.neighbors, hmiss, hbe, henr, Prod.mk.injEq,
          GoOutcome.ok.injEq] at heq
        obtain ⟨h1, h2, h3⟩ := heq
        subst h1
        refine ⟨?_, rfl⟩
        show some (srcE.cfg.makeResponseMeta now) =
          some (src.cfg.makeResponseMeta now)
        rw [hpres.1]
      | fail e => simp [BgplgdSource.neighbors, hmiss, hbe, henr] at heq
      | panics => simp [BgplgdSource.neighbors, hmiss, hbe, henr] at heq

/-- Witness for C5 at a concrete input: a cache hit on `Routes` returns
the cached response with only the `ResultFromCache` flag flipped, the
source unchanged and zero backend requests. -/
theorem c5_cache_hit_semantics_witness :
    BgplgdSource.routes exHTTPBackend c5Src 0 "n1" =
      (GoOutcome.ok c5Stamped, c5Src, 0) :=
  (c5_cache_hit_semantics exHTTPBackend c5Src 0 "n1").1
    exStaleRoutesResponse
    { cachedAt := 0, ttl := 5, version := "1.0", resultFromCache := false }
    (by decide) (by decide)

/-- C6 (code bug): two error paths panic instead of returning the
error.  `GoBGP.RoutesFiltered` only logs a failed `getRoutes` and then
dereferences the nil response (`routes.Imported = nil`), and
`GoBGP.Neighbors` checks a stream receive error only against `io.EOF`,
dereferencing the nil record on any other receive error. -/
theorem c6_error_paths_panic :
    (GoBGP.routesFiltered c6EmptyBackend exGoBGP "unknown-id").1 =
      GoOutcome.panics ∧
    (GoBGP.neighbors c6ErrBackend exGoBGP 0).1 = GoOutcome.panics := by
  decide

/-- C7 (counterexample): `GoBGP.AllRoutes` does not abort when one
iteration fails.  The second peer's table query fails (the fixture's
`table` returns an error for every peer but `exPeer`), yet the call
succeeds and returns only the first peer's routes — a partially
populated response with a nil error. -/
theorem c7_gobgp_allroutes_keeps_going :
    c7Backend.table (PeerHash exPeer2) .adjIn = .error "backend failure" ∧
    (GoBGP.allRoutes c7Backend exGoBGP).1 =
      GoOutcome.ok
        { meta := none
          imported := some [exRouteA]
          notExported := some []
          filtered := some [] } :=
  ⟨rfl, by decide⟩

/-- C7 (amended claim): the polling (openbgpd) adapter's `Neighbors`
enrichment loop aborts on the first per-neighbor failure — a failing
`RoutesFiltered` for the head neighbor fails the whole loop whatever
the rest of the list is, and a failing enrichment loop fails the whole
`Neighbors` call with that error; the streaming adapter's `AllRoutes`,
however, logs per-peer failures and continues, returning a partially
populated success. -/
theorem c7_bgplgd_neighbors_abort (b : HTTPBackend) (src : BgplgdSource)
    (now : Nat) (n : Neighbor) (rest : List Neighbor) (e : String)
    (calls : Nat) :
    ((BgplgdSource.routesFiltered b src now n.id).1 = .fail e →
      (BgplgdSource.enrichNeighbors b now (n :: rest) src calls).1 =
        .fail e) ∧
    (∀ nb e' srcE cE, src.neighborsCache.get now = none →
      b.neighborsBody = .ok nb →
      BgplgdSource.enrichNeighbors b now nb src 1 = (.fail e', srcE, cE) →
      (BgplgdSource.neighbors b src now).1 = .fail e') := by
  constructor
  · intro h
    unfold BgplgdSource.enrichNeighbors
    rcases hrf : BgplgdSource.routesFiltered b src now n.id with ⟨o, src1, c1⟩
    rw [hrf] at h
    have ho : o = GoOutcome.fail e := h
    subst ho
    simp [hrf]
  · intro nb e' srcE cE hmiss hbody henr
    simp [BgplgdSource.neighbors, hmiss, hbody, henr]

/-- Witness for C7's amended theorem at a concrete input: with the
per-neighbor RIB query failing, the enrichment loop over one neighbor
fails with that error. -/
theorem c7_bgplgd_neighbors_abort_witness :
    (BgplgdSource.enrichNeighbors failHTTPBackend 0 [exNeighbor]
      exBgplgd 1).1 = GoOutcome.fail "backend down" :=
  (c7_bgplgd_neighbors_abort failHTTPBackend exBgplgd 0 exNeighbor []
    "backend down" 1).1 (by decide)

/-- C8 (code bug): `GoBGP.NeighborsStatus` builds a status record for
every streamed peer but never appends it to the response, so with one
established peer reported by the backend the successful response
carries an empty status list instead of one entry. -/
theorem c8_neighbors_status_drops_entries :
    (GoBGP.neighborsStatus c8Backend exGoBGP 0).1 =
      GoOutcome.ok { meta := none, neighbors := [] } := by
  decide

/-- C9 (code bug): with two address families the filtered counter is
not `total received - total accepted`.  `RoutesFiltered += RoutesReceived
- RoutesAccepted` adds the *running* difference on every iteration, so
the peer with per-AFI `(10,·,4)` and `(5,·,5)` yields 12, not 6; the
received/exported/accepted counters are the correct sums. -/
theorem c9_filtered_counter_compounds :
    (GoBGP.neighbors c9Backend exGoBGP 0).1 =
      GoOutcome.ok { meta := none, neighbors := [c9Neighbor] } ∧
    c9Neighbor.routesReceived - c9Neighbor.routesAccepted = 6 ∧
    c9Neighbor.routesFiltered = 12 := by
  decide

/-- C10 (confirmed): for every openbgpd source and instant, `Status`
performs zero backend requests, leaves the source unchanged and returns
a successful response with version `"openbgpd"` and the constant
message, independent of any backend state. -/
theorem c10_bgplgd_status_constant (src : BgplgdSource) (now : Nat) :
    (BgplgdSource.status src now).2.2 = 0 ∧
    (BgplgdSource.status src now).2.1 = src ∧
    (BgplgdSource.status src now).1 =
      GoOutcome.ok
        { meta := some (src.cfg.makeResponseMeta now)
          status := { routerID := ""
                      backend := ""
                      version := "openbgpd"
                      message := "openbgpd up and running" } } :=
  ⟨rfl, rfl, rfl⟩
